import Mathlib

set_option maxRecDepth 10000

/-!
Verification of the confluent-cost-calculator core against its specification.

The Python sources are shallowly embedded: Python `int` is modelled as `Int`,
Python `float` as an exact rational (type `Frac` below, an unnormalized
fraction with positive denominator whose arithmetic is kernel-computable;
`Frac.toRat` maps it to `ℚ`, and all numeric statements are phrased through
`toRat`), strings as `String` / `List Char`, and a raised exception as
`Option.none` / `Except.error`.
-/

namespace CostCalc

/-! ## Exact rational arithmetic used to model Python floats -/

/-- An exact, unnormalized fraction with a positive denominator.  Models a
Python numeric value; semantics are given by `Frac.toRat`. -/
structure Frac where
  n : Int
  d : Int
  dpos : 0 < d

namespace Frac

def ofInt (k : Int) : Frac := ⟨k, 1, one_pos⟩

instance (m : Nat) : OfNat Frac m := ⟨ofInt m⟩

def add (a b : Frac) : Frac := ⟨a.n * b.d + b.n * a.d, a.d * b.d, mul_pos a.dpos b.dpos⟩

def mul (a b : Frac) : Frac := ⟨a.n * b.n, a.d * b.d, mul_pos a.dpos b.dpos⟩

def sub (a b : Frac) : Frac := ⟨a.n * b.d - b.n * a.d, a.d * b.d, mul_pos a.dpos b.dpos⟩

def neg (a : Frac) : Frac := ⟨-a.n, a.d, a.dpos⟩

/-- Reciprocal; the reciprocal of a zero fraction is 0 (the source never
divides by zero on the paths modelled here, so that branch is unreachable). -/
def inv (a : Frac) : Frac :=
  if h : 0 < a.n then ⟨a.d, a.n, h⟩
  else if h2 : a.n < 0 then ⟨-a.d, -a.n, by omega⟩
  else ⟨0, 1, one_pos⟩

def div (a b : Frac) : Frac := mul a (inv b)

def pow (a : Frac) : Nat → Frac
  | 0 => ofInt 1
  | k + 1 => mul (pow a k) a

instance : Add Frac := ⟨add⟩
instance : Mul Frac := ⟨mul⟩
instance : Sub Frac := ⟨sub⟩
instance : Neg Frac := ⟨neg⟩
instance : Div Frac := ⟨div⟩
instance : Pow Frac Nat := ⟨pow⟩

/-- The rational number a `Frac` denotes. -/
def toRat (a : Frac) : ℚ := (a.n : ℚ) / (a.d : ℚ)

/-- Computable equality test of the denoted rationals. -/
def beq (a b : Frac) : Bool := decide (a.n * b.d = b.n * a.d)

/-- Computable `0 < x` test (Python `x > 0` on a float). -/
def isPos (a : Frac) : Bool := decide (0 < a.n)

end Frac

/-! ## Python string primitives used by `utils/csv_parser.py` -/

/-- The character class of Python `str.strip()` and of the regex class `\s`
(ASCII range). -/
def pyIsSpace (c : Char) : Bool :=
  c = ' ' || c = '\t' || c = '\n' || c = '\r' || c = '\x0b' || c = '\x0c'

/-- Python `str.strip()`: remove leading and trailing whitespace. -/
def pyStrip (l : List Char) : List Char :=
  ((l.dropWhile pyIsSpace).reverse.dropWhile pyIsSpace).reverse

def pyStripS (s : String) : String :=
  String.mk (pyStrip s.data)

def isDigitOrDot (c : Char) : Bool :=
  c.isDigit || c = '.'

def isUpperAlpha (c : Char) : Bool :=
  decide ('A' ≤ c) && decide (c ≤ 'Z')

/-- Value of a list of decimal digit characters. -/
def digitsToNat (l : List Char) : Nat :=
  l.foldl (fun a c => 10 * a + (c.toNat - '0'.toNat)) 0

/-- The numeric value of a digits-and-dots token, read as a decimal literal
(integer part before the first dot, fractional part after it). -/
def tokVal (l : List Char) : Frac :=
  let ip := l.takeWhile (fun c => c ≠ '.')
  let fp := (l.dropWhile (fun c => c ≠ '.')).drop 1
  Frac.ofInt (digitsToNat ip) + Frac.ofInt (digitsToNat fp) / (10 : Frac) ^ fp.length

/-- Python `float()` applied to a token drawn from the regex class `[\d.]+`:
it succeeds exactly when the token has at most one dot and at least one
digit, and raises `ValueError` (here `none`) otherwise. -/
def pyFloatOfToken (l : List Char) : Option Frac :=
  if l.count '.' ≤ 1 && l.any Char.isDigit then some (tokVal l) else none

/-- Python `int()` on a string: strip whitespace, optional sign, then a
non-empty run of digits; anything else raises `ValueError` (`none`). -/
def pyIntCore (l : List Char) : Option Int :=
  match pyStrip l with
  | [] => none
  | c :: rest =>
    if c = '-' then
      if rest ≠ [] && rest.all Char.isDigit then some (-(digitsToNat rest : Int)) else none
    else if c = '+' then
      if rest ≠ [] && rest.all Char.isDigit then some (digitsToNat rest : Int) else none
    else
      if (c :: rest).all Char.isDigit then some (digitsToNat (c :: rest) : Int) else none

/-! ## `parse_storage_to_gb` (src/utils/csv_parser.py lines 5-26) -/

/-- The `conversions` table combined with `conversions.get(unit, 1)`: an
unrecognized unit falls back to the factor 1 (i.e. is treated as GB). -/
def unitFactor (u : List Char) : Frac :=
  if u = "TB".data then 1024
  else if u = "GB".data then 1
  else if u = "MB".data then (1 : Frac) / 1024
  else if u = "KB".data then (1 : Frac) / (1024 * 1024)
  else if u = "B".data then (1 : Frac) / (1024 * 1024 * 1024)
  else 1

/-- `parse_storage_to_gb` on the character list of its input: empty or
all-whitespace input returns 0; otherwise the input is stripped and
uppercased, matched against `([\d.]+)\s*([A-Z]*)` (no match returns 0),
the numeric token is passed to `float()` (which may raise, `none`), the
unit defaults to `B` when the captured suffix is empty, and the value is
scaled by the conversion table. -/
def parseStorageCore (l : List Char) : Option Frac :=
  if pyStrip l = [] then some 0
  else
    let t := (pyStrip l).map Char.toUpper
    let numTok := t.takeWhile isDigitOrDot
    if numTok = [] then some 0
    else
      let rest := (t.dropWhile isDigitOrDot).dropWhile pyIsSpace
      let unitTok := rest.takeWhile isUpperAlpha
      match pyFloatOfToken numTok with
      | none => none
      | some v =>
        let unit := if unitTok = [] then "B".data else unitTok
        some (v * unitFactor unit)

def parse_storage_to_gb (s : String) : Option Frac :=
  parseStorageCore s.data

/-- The denoted rational of an optional parse result, used to state claims. -/
def parseGb (s : String) : Option ℚ :=
  (parse_storage_to_gb s).map Frac.toRat

/-! ## `parse_csv_file` (src/utils/csv_parser.py lines 28-70)

The delimiter layer (`csv.reader`) is abstracted away: the input is the list
of already-split rows, each row a list of column strings. -/

/-- One retained per-row record (`topics.append({...})`). -/
structure TopicRec where
  name : String
  partitions : Int
  storage_gb : Frac
  storage_raw : String

/-- The aggregate returned by both ingestion paths (`ResourceInventory`). -/
structure Inventory where
  total_partitions : Int
  total_storage_gb : Frac
  topics : List TopicRec

/-- Processing of a single data row inside the `for` loop of
`parse_csv_file`: rows with fewer than 6 columns are skipped (`continue`),
and a `ValueError` from `int(row[2])` or from `parse_storage_to_gb`
(caught by the `except` clause) also skips the row (`none`). -/
def processCsvRow (row : List String) : Option TopicRec :=
  if row.length < 6 then none
  else
    let name := pyStripS (row.getD 0 "")
    let p2 := row.getD 2 ""
    match (if pyStripS p2 = "" then some 0 else pyIntCore p2.data) with
    | none => none
    | some partitions =>
      let sraw := pyStripS (row.getD 5 "")
      match parseStorageCore sraw.data with
      | none => none
      | some gb => some ⟨name, partitions, gb, sraw⟩

/-- One `for` iteration of `parse_csv_file`: a skipped row leaves the
accumulator unchanged, an accepted row extends the totals and the record
list. -/
def csvStep (inv : Inventory) (row : List String) : Inventory :=
  match processCsvRow row with
  | none => inv
  | some t =>
    ⟨inv.total_partitions + t.partitions, inv.total_storage_gb + t.storage_gb,
      inv.topics ++ [t]⟩

/-- `parse_csv_file`: skip the header row (`rows[1:]`), then accumulate the
running totals and the per-row records over the surviving rows. -/
def parse_csv_file (rows : List (List String)) : Inventory :=
  (rows.drop 1).foldl csvStep ⟨0, 0, []⟩

/-! ## `parse_databricks_table` (src/utils/csv_parser.py lines 72-108)

The external table source is modelled as an `Except`: either the fetch
fails with an underlying cause (unreachable table) or it yields the data
rows (a dataframe has no header row).  The whole body of the Python
function runs inside a single `try`, whose `except` wraps any exception in
`Exception("Failed to load Databricks table: " + str(e))`. -/

/-- Column access `row.iloc[i]`; out of range raises `IndexError`. -/
def ilocAt (row : List String) (i : Nat) : Except String String :=
  match row.get? i with
  | some v => Except.ok v
  | none => Except.error "IndexError"

/-- One iteration of the `iterrows` loop.  Unlike the file path there is no
row-level `try`: a `ValueError` from `int` or from `parse_storage_to_gb`
escapes to the function-level handler. -/
def processTableRow (row : List String) : Except String TopicRec := do
  let v0 ← ilocAt row 0
  let name := pyStripS v0
  let v2 ← ilocAt row 2
  let partitions ←
    if v2 = "" then Except.ok (0 : Int)
    else
      match pyIntCore v2.data with
      | some k => Except.ok k
      | none => Except.error ("ValueError: " ++ v2)
  let v5 ← ilocAt row 5
  let sraw := pyStripS v5
  let gb ←
    match parseStorageCore sraw.data with
    | some g => Except.ok g
    | none => Except.error ("ValueError: " ++ sraw)
  Except.ok ⟨name, partitions, gb, sraw⟩

/-- The `iterrows` accumulation; the first failing row aborts the whole
aggregation. -/
def tableAggregate : Inventory → List (List String) → Except String Inventory
  | inv, [] => Except.ok inv
  | inv, r :: rs =>
    match processTableRow r with
    | Except.error e => Except.error e
    | Except.ok t =>
      tableAggregate
        ⟨inv.total_partitions + t.partitions, inv.total_storage_gb + t.storage_gb,
          inv.topics ++ [t]⟩ rs

/-- `parse_databricks_table`: fetch the table, aggregate all rows, and wrap
any escaping exception (fetch failure or row failure) in the
`Failed to load Databricks table: ` message. -/
def parse_databricks_table (fetch : Except String (List (List String))) :
    Except String Inventory :=
  match (do
      let rows ← fetch
      tableAggregate ⟨0, 0, []⟩ rows : Except String Inventory) with
  | Except.ok inv => Except.ok inv
  | Except.error e => Except.error ("Failed to load Databricks table: " ++ e)

/-! ## `calculate_rom_costs` (src/utils/rom_export.py lines 15-113)

The Python `config` argument is a dict; the keys the function may touch are
modelled as `Option`-valued fields (`none` = key absent).  Keys read with
`config.get(key, default)` never fail; keys read with `config[key]` raise
`KeyError` when absent, modelled by `Except.error`.  The dict may also carry
keys the function never reads (the app's default config carries the monthly
cost keys and no annual ones, and a caller may add a network rate); those
are fields the function ignores. -/

structure FeedConfig where
  inbound : Int
  outbound : Int
  partitions : Frac

structure RomConfigDict where
  num_ingests : Option Int
  feed_configs : Option (List FeedConfig)
  records_per_day : Option Int
  inbound_hours : Option Frac
  de_hourly_rate : Option Frac
  outbound_hours : Option Frac
  normalization_hours : Option Frac
  workspace_setup_cost : Option Frac
  confluent_annual_cost : Option Frac
  gcp_per_feed_annual_cost : Option Frac
  escalation_rate : Option Frac
  start_year : Option Int
  confluent_monthly_cost : Option Frac
  gcp_per_feed_monthly_cost : Option Frac
  base_network_annual_cost : Option Frac

/-- `config[key]` for a float-valued key: `KeyError` when absent. -/
def req (o : Option Frac) (key : String) : Except String Frac :=
  match o with
  | some v => Except.ok v
  | none => Except.error ("KeyError: " ++ key)

/-- `config[key]` for an int-valued key. -/
def reqI (o : Option Int) (key : String) : Except String Int :=
  match o with
  | some v => Except.ok v
  | none => Except.error ("KeyError: " ++ key)

/-- A row of `initial_investment` / `operating_variance`. -/
structure YearEntry where
  year : Int
  data_engineering : Frac
  cloud_infrastructure : Frac
  total : Frac

structure RomBreakdown where
  inbound_cost : Frac
  outbound_cost : Frac
  normalization_cost : Frac
  workspace_setup : Frac
  confluent_cost : Frac
  gcp_cost : Frac
  network_cost : Frac
  one_time_development : Frac
  cloud_infrastructure_7year : Frac
  operating_variance_6year : Frac
  total_project_cost : Frac
  first_year_cloud_cost : Frac

structure RomResults where
  initial_investment : List YearEntry
  operating_variance : List YearEntry
  total_feeds : Int
  total_partitions : Frac
  total_inbound_feeds : Int
  total_outbound_feeds : Int
  feed_configs : List FeedConfig
  records_per_day : Int
  partition_utilization_pct : Frac
  breakdown : RomBreakdown

/-- The `for i in range(1, 7)` escalation loop: starting from the first-year
cloud cost it accumulates, in order i = 1..6, the escalated yearly costs
into the 7-year total and the 6-year operating variance, appending one
`operating_variance` row per year. -/
def romLoop (first esc : Frac) (startYear : Int) :
    List YearEntry × Frac × Frac :=
  (List.range 6).foldl
    (fun acc i =>
      let escalated := first * ((1 : Frac) + esc) ^ (i + 1)
      (acc.1 ++ [⟨startYear + (i : Int) + 1, 0, escalated, escalated⟩],
        acc.2.1 + escalated, acc.2.2 + escalated))
    ([], first, 0)

def calculate_rom_costs (config : RomConfigDict) : Except String RomResults := do
  let num_ingests := config.num_ingests.getD 1
  let feed_configs := config.feed_configs.getD [⟨1, 1, (48 : Frac) / 1000⟩]
  let records_per_day := config.records_per_day.getD 5000
  let total_inbound_feeds := (feed_configs.map (·.inbound)).sum
  let total_outbound_feeds := (feed_configs.map (·.outbound)).sum
  let total_feeds := num_ingests
  let total_partitions := (feed_configs.map (·.partitions)).foldl (· + ·) 0
  let inbound_hours ← req config.inbound_hours "inbound_hours"
  let de_hourly_rate ← req config.de_hourly_rate "de_hourly_rate"
  let outbound_hours ← req config.outbound_hours "outbound_hours"
  let inbound_cost := Frac.ofInt total_inbound_feeds * inbound_hours * de_hourly_rate
  let outbound_cost := Frac.ofInt total_outbound_feeds * outbound_hours * de_hourly_rate
  let normalization_hours ← req config.normalization_hours "normalization_hours"
  let normalization_cost := normalization_hours * de_hourly_rate * Frac.ofInt total_feeds
  let workspace_setup ← req config.workspace_setup_cost "workspace_setup_cost"
  let one_time_development := inbound_cost + outbound_cost + normalization_cost + workspace_setup
  let base_confluent_annual ← req config.confluent_annual_cost "confluent_annual_cost"
  let base_gcp_annual ← req config.gcp_per_feed_annual_cost "gcp_per_feed_annual_cost"
  let partition_utilization := total_partitions / (100 : Frac)
  let confluent_cost := base_confluent_annual * Frac.ofInt total_feeds * ((1 : Frac) + partition_utilization)
  let records_per_year := Frac.ofInt records_per_day * (365 : Frac)
  let storage_gb_per_year := records_per_year / ((1024 : Frac) * 1024)
  let storage_multiplier := (1 : Frac) + storage_gb_per_year / 1000
  let gcp_cost := base_gcp_annual * Frac.ofInt total_feeds * storage_multiplier
  let network_cost := (120000 : Frac) * partition_utilization
  let first_year_cloud_cost := confluent_cost + gcp_cost + network_cost
  let start_year ← reqI config.start_year "start_year"
  let initial_investment : List YearEntry :=
    [⟨start_year, one_time_development, first_year_cloud_cost,
      one_time_development + first_year_cloud_cost⟩]
  let escalation_rate ← req config.escalation_rate "escalation_rate"
  let loopOut := romLoop first_year_cloud_cost escalation_rate start_year
  let total_project_cost := one_time_development + loopOut.2.1
  Except.ok
    { initial_investment := initial_investment
      operating_variance := loopOut.1
      total_feeds := total_feeds
      total_partitions := total_partitions
      total_inbound_feeds := total_inbound_feeds
      total_outbound_feeds := total_outbound_feeds
      feed_configs := feed_configs
      records_per_day := records_per_day
      partition_utilization_pct := partition_utilization * 100
      breakdown :=
        { inbound_cost := inbound_cost
          outbound_cost := outbound_cost
          normalization_cost := normalization_cost
          workspace_setup := workspace_setup
          confluent_cost := confluent_cost
          gcp_cost := gcp_cost
          network_cost := network_cost
          one_time_development := one_time_development
          cloud_infrastructure_7year := loopOut.2.1
          operating_variance_6year := loopOut.2.2
          total_project_cost := total_project_cost
          first_year_cloud_cost := first_year_cloud_cost } }

/-- A configuration dict carrying every key `calculate_rom_costs` requires
(and only those). -/
def mkRomConfig (ni : Int) (fcs : List FeedConfig) (rpd : Int)
    (ih dr oh nh ws ca ga er : Frac) (sy : Int) : RomConfigDict :=
  { num_ingests := some ni
    feed_configs := some fcs
    records_per_day := some rpd
    inbound_hours := some ih
    de_hourly_rate := some dr
    outbound_hours := some oh
    normalization_hours := some nh
    workspace_setup_cost := some ws
    confluent_annual_cost := some ca
    gcp_per_feed_annual_cost := some ga
    escalation_rate := some er
    start_year := some sy
    confluent_monthly_cost := none
    gcp_per_feed_monthly_cost := none
    base_network_annual_cost := none }

/-- `total_partitions = sum(f['partitions'] for f in feed_configs)`. -/
def romTotalPartitions (fcs : List FeedConfig) : Frac :=
  (fcs.map (·.partitions)).foldl (· + ·) 0

/-- `partition_utilization = total_partitions / TOTAL_NETWORK_PARTITIONS`
with the fixed constant `TOTAL_NETWORK_PARTITIONS = 100.0`. -/
def romUtil (fcs : List FeedConfig) : Frac :=
  romTotalPartitions fcs / (100 : Frac)

/-- `one_time_development` from the engineering cost lines. -/
def romOneTime (ni : Int) (fcs : List FeedConfig) (ih dr oh nh ws : Frac) : Frac :=
  Frac.ofInt ((fcs.map (·.inbound)).sum) * ih * dr
    + Frac.ofInt ((fcs.map (·.outbound)).sum) * oh * dr
    + nh * dr * Frac.ofInt ni + ws

/-- `confluent_cost = base_confluent_annual * total_feeds * (1 + partition_utilization)`. -/
def romConfluentCost (ca : Frac) (ni : Int) (fcs : List FeedConfig) : Frac :=
  ca * Frac.ofInt ni * ((1 : Frac) + romUtil fcs)

/-- `gcp_cost = base_gcp_annual * total_feeds * (1 + (records_per_day * 365 / 1024**2) / 1000)`. -/
def romGcpCost (ga : Frac) (ni : Int) (rpd : Int) : Frac :=
  ga * Frac.ofInt ni * ((1 : Frac) + (Frac.ofInt rpd * (365 : Frac) / ((1024 : Frac) * 1024)) / 1000)

/-- `network_cost = base_network_annual * partition_utilization` with the
hardcoded local constant `base_network_annual = 120000`. -/
def romNetworkCost (fcs : List FeedConfig) : Frac :=
  (120000 : Frac) * romUtil fcs

def romFirstYear (ca ga : Frac) (ni : Int) (fcs : List FeedConfig) (rpd : Int) : Frac :=
  romConfluentCost ca ni fcs + romGcpCost ga ni rpd + romNetworkCost fcs

/-- The `RomResults` value `calculate_rom_costs` produces on a configuration
that carries every required key. -/
def romModel (ni : Int) (fcs : List FeedConfig) (rpd : Int)
    (ih dr oh nh ws ca ga er : Frac) (sy : Int) : RomResults :=
  { initial_investment :=
      [⟨sy, romOneTime ni fcs ih dr oh nh ws, romFirstYear ca ga ni fcs rpd,
        romOneTime ni fcs ih dr oh nh ws + romFirstYear ca ga ni fcs rpd⟩]
    operating_variance := (romLoop (romFirstYear ca ga ni fcs rpd) er sy).1
    total_feeds := ni
    total_partitions := romTotalPartitions fcs
    total_inbound_feeds := (fcs.map (·.inbound)).sum
    total_outbound_feeds := (fcs.map (·.outbound)).sum
    feed_configs := fcs
    records_per_day := rpd
    partition_utilization_pct := romUtil fcs * 100
    breakdown :=
      { inbound_cost := Frac.ofInt ((fcs.map (·.inbound)).sum) * ih * dr
        outbound_cost := Frac.ofInt ((fcs.map (·.outbound)).sum) * oh * dr
        normalization_cost := nh * dr * Frac.ofInt ni
        workspace_setup := ws
        confluent_cost := romConfluentCost ca ni fcs
        gcp_cost := romGcpCost ga ni rpd
        network_cost := romNetworkCost fcs
        one_time_development := romOneTime ni fcs ih dr oh nh ws
        cloud_infrastructure_7year := (romLoop (romFirstYear ca ga ni fcs rpd) er sy).2.1
        operating_variance_6year := (romLoop (romFirstYear ca ga ni fcs rpd) er sy).2.2
        total_project_cost :=
          romOneTime ni fcs ih dr oh nh ws + (romLoop (romFirstYear ca ga ni fcs rpd) er sy).2.1
        first_year_cloud_cost := romFirstYear ca ga ni fcs rpd } }

/-- `DEFAULT_ROM_CONFIG` (src/app_rom.py lines 49-67): it supplies the
monthly cost keys `confluent_monthly_cost` and `gcp_per_feed_monthly_cost`
but not the annual keys the ROM model reads; `start_year` is
`datetime.now().year`, supplied here as a parameter. -/
def DEFAULT_ROM_CONFIG (currentYear : Int) : RomConfigDict :=
  { num_ingests := some 1
    feed_configs := some [⟨1, 1, (24 : Frac)⟩]
    records_per_day := some 5000
    inbound_hours := some 296
    de_hourly_rate := some 80
    outbound_hours := some 254
    normalization_hours := some ((279 : Frac) / 10)
    workspace_setup_cost := some 8000
    confluent_annual_cost := none
    gcp_per_feed_annual_cost := none
    escalation_rate := some ((34 : Frac) / 1000)
    start_year := some currentYear
    confluent_monthly_cost := some 976
    gcp_per_feed_monthly_cost := some 773
    base_network_annual_cost := none }

/-! ## `calculate_costs` (src/app_rom.py lines 569-598): prorated T-shirt
size costs. -/

structure SizeConfig where
  partitions : Int
  storage_gb : Int

structure CkuConfig where
  azure_ckus : Int
  azure_rate : Int
  gcp_ckus : Int
  gcp_rate : Int

structure FlatCosts where
  storage : Int
  network : Int
  network_multiplier : Frac
  governance : Int

structure Costs where
  compute : Frac
  storage : Frac
  network : Frac
  governance : Frac
  total_yearly : Frac
  total_monthly : Frac

/-- `partition_ratio = size partitions / TOTAL_PARTITIONS if
TOTAL_PARTITIONS > 0 else 0`. -/
def partitionRat (partitions : Int) (total : Int) : Frac :=
  if 0 < total then Frac.ofInt partitions / Frac.ofInt total else 0

/-- `storage_ratio = size storage / TOTAL_STORAGE_GB if
TOTAL_STORAGE_GB > 0 else 0`. -/
def storageRat (storage_gb : Int) (total : Frac) : Frac :=
  if total.isPos then Frac.ofInt storage_gb / total else 0

/-- `calculate_costs(size_config, selected_size)`; the CKU configuration,
flat costs and inventory totals it reads from the session state are passed
explicitly.  `selected_size` is accepted and unused, as in the source. -/
def calculate_costs (size_config : SizeConfig) (selected_size : String)
    (cku : CkuConfig) (flat_costs : FlatCosts)
    (TOTAL_PARTITIONS : Int) (TOTAL_STORAGE_GB : Frac) : Costs :=
  let azure_annual := cku.azure_ckus * cku.azure_rate * 12
  let gcp_annual := cku.gcp_ckus * cku.gcp_rate * 12
  let total_cku_cost_annual := azure_annual + gcp_annual
  let pr := partitionRat size_config.partitions TOTAL_PARTITIONS
  let sr := storageRat size_config.storage_gb TOTAL_STORAGE_GB
  let compute := pr * Frac.ofInt total_cku_cost_annual
  let storage := sr * Frac.ofInt flat_costs.storage
  let network := Frac.ofInt flat_costs.network * flat_costs.network_multiplier
  let governance := sr * Frac.ofInt flat_costs.governance
  let total_yearly := compute + storage + network + governance
  { compute := compute
    storage := storage
    network := network
    governance := governance
    total_yearly := total_yearly
    total_monthly := total_yearly / 12 }

/-! ## The flat-rate predecessor ROM variant -/

structure FlatRomBreakdown where
  one_time_total : Frac
  first_year_cloud : Frac
  cloud_7year_total : Frac
  operating_variance_6year : Frac
  total_project_cost : Frac
  operating_variance : List YearEntry

/-- Modelled from the spec: the flat-rate predecessor variant of the ROM
cost model is not present under src (only the utilization-scaled variant
is); per the spec it keeps the one-time engineering formulas
(`normalization_cost` scaling per ingest), sets
`platform_cost = base_platform_annual_cost`,
`compute_cost = total_feed_count * base_compute_annual_cost_per_feed` with
`total_feed_count = inbound_feeds + outbound_feeds`, has no network term,
and escalates the full first-year cloud cost over years 2..7 exactly like
the utilization-scaled variant. -/
def calculate_rom_costs_flat (inbound_feeds outbound_feeds num_ingests : Int)
    (hourly_rate inbound_hours outbound_hours normalization_hours setup
      platform_annual compute_per_feed escalation : Frac)
    (start_year : Int) : FlatRomBreakdown :=
  let inbound_cost := Frac.ofInt inbound_feeds * inbound_hours * hourly_rate
  let outbound_cost := Frac.ofInt outbound_feeds * outbound_hours * hourly_rate
  let normalization_cost := normalization_hours * hourly_rate * Frac.ofInt num_ingests
  let one_time_total := inbound_cost + outbound_cost + normalization_cost + setup
  let first_year_cloud :=
    platform_annual + Frac.ofInt (inbound_feeds + outbound_feeds) * compute_per_feed
  let loopOut := romLoop first_year_cloud escalation start_year
  { one_time_total := one_time_total
    first_year_cloud := first_year_cloud
    cloud_7year_total := loopOut.2.1
    operating_variance_6year := loopOut.2.2
    total_project_cost := one_time_total + loopOut.2.1
    operating_variance := loopOut.1 }

/-! ## Python number formatting used by the renderers

Python `format`/`round` round floats half-to-even; on the exact rational
model these helpers implement half-to-even exactly. -/

/-- Floor of a `Frac` as an integer. -/
def fracFloor (a : Frac) : Int := a.n.fdiv a.d

/-- Round half to even, as Python `round(x)` and `format(x, '.0f')` do. -/
def roundHalfEven (a : Frac) : Int :=
  let f := fracFloor a
  let r := a.n - f * a.d
  if 2 * r < a.d then f
  else if a.d < 2 * r then f + 1
  else if f % 2 = 0 then f else f + 1

/-- Insert thousands separators into a reversed digit list. -/
def group3 : List Char → List Char
  | a :: b :: c :: d :: rest => a :: b :: c :: ',' :: group3 (d :: rest)
  | l => l

/-- An integer with thousands separators, e.g. `12345 -> 12,345`. -/
def intComma (k : Int) : String :=
  (if k < 0 then "-" else "") ++ String.mk ((group3 (Nat.repr k.natAbs).data.reverse).reverse)

/-- `format_in_thousands(value)` (src/utils/rom_export.py lines 12-13):
the f-string `${value:,.0f}`. -/
def format_in_thousands (value : Frac) : String :=
  "$" ++ intComma (roundHalfEven value)

/-- Left-pad a numeral with zeros to a given width. -/
def padZeros (s : String) (width : Nat) : String :=
  String.mk (List.replicate (width - s.length) '0' ++ s.data)

/-- The f-string format `.{nd}f`: fixed-point with `nd` decimals, round
half to even, no thousands separators. -/
def fmtFixed (nd : Nat) (v : Frac) : String :=
  let s := roundHalfEven (v * (10 : Frac) ^ nd)
  let sign := if s < 0 then "-" else ""
  if nd = 0 then sign ++ Nat.repr s.natAbs
  else
    sign ++ Nat.repr (s.natAbs / 10 ^ nd) ++ "." ++ padZeros (Nat.repr (s.natAbs % 10 ^ nd)) nd

/-- Python `round(x)`: nearest integer, ties to even. -/
def pyRound (v : Frac) : Int := roundHalfEven v

/-- Digits of `n` with a decimal point `k` places from the right. -/
def decimalString (n : Int) (k : Nat) : String :=
  (if n < 0 then "-" else "")
    ++ Nat.repr (n.natAbs / 10 ^ k) ++ "." ++ padZeros (Nat.repr (n.natAbs % 10 ^ k)) k

/-- `str(x)` / `f"{x}"` on a float holding an exact decimal value: shortest
decimal expansion, with `.0` appended to whole numbers (the fallback for a
value with no short decimal expansion is not reachable from the
configuration fields this is applied to). -/
def pyFloatRepr (q : Frac) : String :=
  match (List.range 40).find? (fun k => (10 ^ k * q.n) % q.d = 0) with
  | some 0 => toString (q.n / q.d) ++ ".0"
  | some k => decimalString ((10 ^ k * q.n) / q.d) k
  | none => fmtFixed 17 q

/-! ## `generate_rom_export` (src/utils/rom_export.py lines 115-215): the
delimited-text (CSV) ROM layout. -/

def generate_rom_export (config : RomConfigDict) : Except String String := do
  let results ← calculate_rom_costs config
  let start_year ← reqI config.start_year "start_year"
  let escalation_rate ← req config.escalation_rate "escalation_rate"
  let inbound_hours ← req config.inbound_hours "inbound_hours"
  let de_hourly_rate ← req config.de_hourly_rate "de_hourly_rate"
  let outbound_hours ← req config.outbound_hours "outbound_hours"
  let normalization_hours ← req config.normalization_hours "normalization_hours"
  let workspace_setup_cost ← req config.workspace_setup_cost "workspace_setup_cost"
  let confluent_annual_cost ← req config.confluent_annual_cost "confluent_annual_cost"
  let gcp_per_feed_annual_cost ← req config.gcp_per_feed_annual_cost "gcp_per_feed_annual_cost"
  let yearsLine :=
    "Fiscal Year," ++ String.intercalate ","
      ((List.range 12).map (fun i => toString (start_year + (i : Int)))) ++ ",Total"
  let initial0 := results.initial_investment.headD ⟨0, 0, 0, 0⟩
  let initial_de := initial0.data_engineering
  let initial_cloud := initial0.cloud_infrastructure
  let initial_total := initial0.total
  let cloud_costs := results.operating_variance.map
    (fun ov => format_in_thousands ov.cloud_infrastructure)
  let escPct := fmtFixed 1 (escalation_rate * 100) ++ "%"
  let lines : List String :=
    [ "Confluent Feed ROM - Rough Order of Magnitude"
    , ""
    , yearsLine
    , "INITIAL INVESTMENT EXPENSE"
    , "Data Engineering," ++ format_in_thousands initial_de ++ ",,,,,,,,,,,"
        ++ "," ++ format_in_thousands initial_de
    , "Data Strategy and Governance,,,,,,,,,,,,$-"
    , "Enterprise Reporting and Dashboard,,,,,,,,,,,,$-"
    , "Advance Modeling,,,,,,,,,,,,$-"
    , "Service Performance,,,,,,,,,,,,$-"
    , "GCP/GKE/Confluent," ++ format_in_thousands initial_cloud ++ ","
        ++ String.intercalate "," cloud_costs ++ ",,,,,,"
        ++ format_in_thousands results.breakdown.cloud_infrastructure_7year
    , "TOTAL," ++ format_in_thousands initial_total ++ ","
        ++ String.intercalate "," cloud_costs ++ ",,,,,,"
        ++ format_in_thousands results.breakdown.total_project_cost
    , ""
    , ""
    , yearsLine
    , "OPERATING VARIANCE"
    , "Data Engineering,," ++ String.intercalate "," cloud_costs ++ ",,,,,,"
        ++ format_in_thousands results.breakdown.operating_variance_6year
    , "Data Strategy and Governance,,,,,,,,,,,,$-"
    , "Enterprise Reporting and Dashboard,,,,,,,,,,,,$-"
    , "Advance Modeling,,,,,,,,,,,,$-"
    , "Service Performance,,,,,,,,,,,,$-"
    , "TOTAL,," ++ String.intercalate "," cloud_costs ++ ",,,,,,"
        ++ format_in_thousands results.breakdown.operating_variance_6year
    , ""
    , ""
    , "Summary"
    , "Capital,$-"
    , "Expense," ++ format_in_thousands results.breakdown.total_project_cost
    , "Variance," ++ format_in_thousands results.breakdown.operating_variance_6year
    , "Total," ++ format_in_thousands results.breakdown.total_project_cost
    , ""
    , ""
    , "Escalation Rate," ++ escPct
    , ""
    , "Note*"
    , "\"Estimate based on latest Payroll 2.0 scaling factors\""
    , "\"ROM may require revision as detailed requirements are finalized\""
    , ""
    , "Assumptions:"
    , "1,ROM covers " ++ toString results.total_feeds
        ++ " EEB ingest feed(s) with inbound/outbound data processing capabilities"
    , "2,Feed ingests data with complex processing requirements"
    , "3,Includes event data with facility impacts and workflow approvals"
    , "4,Feed includes data normalization and standardization requirements"
    , "5,Workspace/Environment setup costs included"
    , "6,Confluent platform required for real-time streaming: "
        ++ format_in_thousands confluent_annual_cost ++ " per feed per year"
    , "7,GCP/GKE infrastructure cost: " ++ format_in_thousands gcp_per_feed_annual_cost
        ++ " per feed per year for compute and storage"
    , "8,ROM based on current understanding of high level requirements & known attributes"
    , "9,As requirements are refined/finalized the ROM may need to be revised"
    , ""
    , "Timeline"
    , "FY" ++ toString start_year ++ "-FY" ++ toString (start_year + 6)
    , "12,FY" ++ toString start_year ++ ": " ++ format_in_thousands initial_total
        ++ " (Data Engineering + Cloud infrastructure setup - starting in 3 weeks)"
    , "13,FY" ++ toString (start_year + 1) ++ "-" ++ toString (start_year + 6) ++ ": "
        ++ format_in_thousands (results.breakdown.operating_variance_6year / 6)
        ++ " annually (ongoing cloud operations with " ++ escPct
        ++ " escalation) plus Operating Variance"
    , ""
    , "Cost Breakdown per Feed:"
    , "14,Create inbound ingest: " ++ format_in_thousands (inbound_hours * de_hourly_rate)
        ++ "," ++ toString (pyRound inbound_hours) ++ " (" ++ toString (pyRound inbound_hours)
        ++ " hours)"
    , "15,Create outbound enterprise data assets: "
        ++ format_in_thousands (outbound_hours * de_hourly_rate)
        ++ "," ++ toString (pyRound outbound_hours) ++ " (" ++ toString (pyRound outbound_hours)
        ++ " hours)"
    , "16,Data normalization and standardization: "
        ++ format_in_thousands results.breakdown.normalization_cost
        ++ "," ++ toString (pyRound normalization_hours) ++ " (" ++ pyFloatRepr normalization_hours
        ++ " hours - " ++ toString results.total_feeds ++ " feeds)"
    , "17,Workspace/Environment/Subscription Prep: " ++ format_in_thousands workspace_setup_cost
    , "18,Annual Confluent platform cost: " ++ format_in_thousands confluent_annual_cost
        ++ "," ++ toString (pyRound confluent_annual_cost)
    , "19,Annual GCP/GKE cost: " ++ format_in_thousands gcp_per_feed_annual_cost
        ++ "," ++ toString (pyRound gcp_per_feed_annual_cost) ++ " per feed"
    , ""
    , "Total " ++ toString results.total_feeds ++ "-Feed Investment"
    , toString results.total_feeds ++ "-Feed Investment"
    , "21,Data Engineering: " ++ format_in_thousands results.breakdown.one_time_development
        ++ "," ++ toString (pyRound (results.breakdown.one_time_development / 1000))
        ++ " (one-time development)"
    , "22,Cloud Infrastructure: " ++ format_in_thousands results.breakdown.cloud_infrastructure_7year
        ++ "," ++ toString (pyRound (results.breakdown.cloud_infrastructure_7year / 1000))
        ++ " (7-year operational costs with " ++ escPct ++ " escalation)"
    , "23,Operating Variance: " ++ format_in_thousands results.breakdown.operating_variance_6year
        ++ "," ++ toString (pyRound (results.breakdown.operating_variance_6year / 1000))
        ++ " (6-year escalated costs)"
    , "24,Total Project Cost: " ++ format_in_thousands results.breakdown.total_project_cost
        ++ "," ++ toString (pyRound (results.breakdown.total_project_cost / 1000)) ]
  Except.ok (String.intercalate "\n" lines)

/-! ## `generate_cost_projection_csv` (src/utils/export_data.py lines
13-90).  `datetime.now().year` is passed as the `current_year` parameter;
the `flat_costs` argument is accepted and unused, as in the source. -/

def projectionRows (costs : Costs) (annual_increase_rate : Frac) (current_year : Int) :
    List String :=
  ((List.range 7).foldl
    (fun (acc : List String × Frac) (year : Nat) =>
      let multiplier := ((1 : Frac) + annual_increase_rate) ^ year
      let compute_cost := costs.compute * multiplier
      let storage_cost := costs.storage * multiplier
      let network_cost := costs.network * multiplier
      let governance_cost := costs.governance * multiplier
      let total_cost := compute_cost + storage_cost + network_cost + governance_cost
      let cumulative_cost := acc.2 + total_cost
      (acc.1 ++
        [toString (current_year + (year : Int))
          ++ ",$" ++ fmtFixed 2 compute_cost
          ++ ",$" ++ fmtFixed 2 storage_cost
          ++ ",$" ++ fmtFixed 2 network_cost
          ++ ",$" ++ fmtFixed 2 governance_cost
          ++ ",$" ++ fmtFixed 2 total_cost
          ++ ",$" ++ fmtFixed 2 cumulative_cost],
        cumulative_cost))
    ([], 0)).1

def monthlyRows (costs : Costs) (annual_increase_rate : Frac) (current_year : Int) :
    List String :=
  (List.range 7).map
    (fun (year : Nat) =>
      let multiplier := ((1 : Frac) + annual_increase_rate) ^ year
      let total_annual := costs.total_yearly * multiplier
      let monthly_avg := total_annual / 12
      toString (current_year + (year : Int)) ++ ","
        ++ String.intercalate "," (List.replicate 12 ("$" ++ fmtFixed 2 monthly_avg))
        ++ ",$" ++ fmtFixed 2 total_annual)

def generate_cost_projection_csv (selected_size : String) (partitions storage_gb : Int)
    (cku_config : CkuConfig) (flat_costs : FlatCosts) (costs : Costs)
    (annual_increase_rate : Frac) (current_year : Int) : String :=
  let csv_rows : List String :=
    [ "Confluent Cloud Cost Calculator - 7 Year Projection"
    , ""
    , "T-Shirt Size:," ++ selected_size
    , "Partitions:," ++ toString partitions
    , "Storage (GB):," ++ toString storage_gb
    , "Annual Increase Rate:," ++ fmtFixed 1 (annual_increase_rate * 100) ++ "%"
    , ""
    , "CKU Configuration"
    , "Azure CKUs:," ++ toString cku_config.azure_ckus
    , "Azure Rate ($/CKU/Month):,$" ++ toString cku_config.azure_rate
    , "GCP CKUs:," ++ toString cku_config.gcp_ckus
    , "GCP Rate ($/CKU/Month):,$" ++ toString cku_config.gcp_rate
    , ""
    , "Current Year Cost Breakdown"
    , "Category,Annual Cost,Monthly Cost"
    , "Compute (CKU),$" ++ fmtFixed 2 costs.compute ++ ",$" ++ fmtFixed 2 (costs.compute / 12)
    , "Storage,$" ++ fmtFixed 2 costs.storage ++ ",$" ++ fmtFixed 2 (costs.storage / 12)
    , "Network,$" ++ fmtFixed 2 costs.network ++ ",$" ++ fmtFixed 2 (costs.network / 12)
    , "Governance,$" ++ fmtFixed 2 costs.governance ++ ",$" ++ fmtFixed 2 (costs.governance / 12)
    , "Total,$" ++ fmtFixed 2 costs.total_yearly ++ ",$" ++ fmtFixed 2 costs.total_monthly
    , ""
    , "7-Year Cost Projection"
    , "Year,Compute Cost,Storage Cost,Network Cost,Governance Cost,Total Annual Cost,Cumulative Cost" ]
    ++ projectionRows costs annual_increase_rate current_year
    ++ [ ""
       , "Monthly Breakdown by Year"
       , "Year,Jan,Feb,Mar,Apr,May,Jun,Jul,Aug,Sep,Oct,Nov,Dec,Annual Total" ]
    ++ monthlyRows costs annual_increase_rate current_year
  String.intercalate "\n" csv_rows

/-! ## The spreadsheet export entry points and their CSV fallback

When the `openpyxl` import fails (`HAS_OPENPYXL = False`, passed here as
the `hasOpenpyxl` flag) every export function returns the CSV layout
encoded as UTF-8 bytes.  The styled workbook produced on the other branch
is abstracted to the data it is rendered from (its cell-by-cell styling is
out of scope of every claim); `ExportResult.bytes s` stands for
`s.encode('utf-8')`. -/

inductive ExportResult (α : Type) where
  | workbook : α → ExportResult α
  | bytes : String → ExportResult α

/-- `generate_rom_export_excel(config, logo_path=None)`
(src/utils/rom_export.py lines 481-484 for the fallback guard). -/
def generate_rom_export_excel (hasOpenpyxl : Bool) (config : RomConfigDict)
    (logo_path : Option String) : Except String (ExportResult RomResults) :=
  if !hasOpenpyxl then (generate_rom_export config).map ExportResult.bytes
  else (calculate_rom_costs config).map ExportResult.workbook

/-- `generate_rom_export_excel_de_only(config)` (lines 218-221 for the
fallback guard). -/
def generate_rom_export_excel_de_only (hasOpenpyxl : Bool) (config : RomConfigDict) :
    Except String (ExportResult RomResults) :=
  if !hasOpenpyxl then (generate_rom_export config).map ExportResult.bytes
  else (calculate_rom_costs config).map ExportResult.workbook

/-- `generate_rom_export_excel_cloud_only(config)` (lines 327-330 for the
fallback guard). -/
def generate_rom_export_excel_cloud_only (hasOpenpyxl : Bool) (config : RomConfigDict) :
    Except String (ExportResult RomResults) :=
  if !hasOpenpyxl then (generate_rom_export config).map ExportResult.bytes
  else (calculate_rom_costs config).map ExportResult.workbook

/-- `generate_cost_projection_excel(...)` (src/utils/export_data.py lines
93-109 for the fallback guard). -/
def generate_cost_projection_excel (hasOpenpyxl : Bool) (selected_size : String)
    (partitions storage_gb : Int) (cku_config : CkuConfig) (flat_costs : FlatCosts)
    (costs : Costs) (annual_increase_rate : Frac) (current_year : Int)
    (logo_path : String) : ExportResult Costs :=
  if !hasOpenpyxl then
    ExportResult.bytes
      (generate_cost_projection_csv selected_size partitions storage_gb cku_config
        flat_costs costs annual_increase_rate current_year)
  else ExportResult.workbook costs

/-! ## Claim-side definitions

These definitions follow the specification text (not the source) and are
compared against the source embeddings; each is named accordingly. -/

/-- The claim's reading of the ROM network term: the base network annual
cost is read from the configuration's cloud rates and scaled by the
partition utilization. -/
def networkCostPerClaim (config : RomConfigDict) (r : RomResults) : Prop :=
  ∃ b, config.base_network_annual_cost = some b ∧
    r.breakdown.network_cost.toRat = b.toRat * (r.total_partitions.toRat / 100)

/-- A configuration whose cloud rates offer a network rate of 0; the code
still charges 120000 times the utilization. -/
def cfgNetworkZero : RomConfigDict :=
  { mkRomConfig 1 [⟨1, 1, (50 : Frac)⟩] 5000 296 80 254 ((279 : Frac) / 10) 8000
      11709 9279 ((34 : Frac) / 1000) 2025 with
    base_network_annual_cost := some 0 }

/-- Whether a modelled call completed without raising. -/
def isOkE {α : Type} (x : Except String α) : Bool :=
  match x with
  | Except.ok _ => true
  | Except.error _ => false

/-- The fixed scenario configuration of the spec's regression fixture,
evaluated under the flat-rate variant. -/
def flatScenario : FlatRomBreakdown :=
  calculate_rom_costs_flat 1 1 1 80 296 254 ((279 : Frac) / 10) 8000 11709 9279
    ((34 : Frac) / 1000) 2025

/-- The claim's unit table: default factor is the `B` factor both when the
suffix is absent and when it is unrecognized. -/

def unitFactorPerClaim (u : List Char) : Frac :=
  if u = "TB".data then 1024
  else if u = "GB".data then 1
  else if u = "MB".data then (1 : Frac) / 1024
  else if u = "KB".data then (1 : Frac) / (1024 * 1024)
  else (1 : Frac) / (1024 * 1024 * 1024)

def claimedValidRow (row : List String) : Bool :=
  decide (6 ≤ row.length) &&
    (pyStripS (row.getD 2 "") = "" || (pyIntCore (row.getD 2 "").data).isSome)

def claimedPartitionTotal (rows : List (List String)) : Int :=
  (((rows.drop 1).filter claimedValidRow).map
    (fun row =>
      if pyStripS (row.getD 2 "") = "" then 0
      else (pyIntCore (row.getD 2 "").data).getD 0)).sum

def exampleInventory : List (List String) :=
  [["Topic", "a", "Partitions", "b", "c", "Storage"],
   ["t1", "", "1", "", "", "1GB"],
   ["t2", "", "2", "", "", "2GB"],
   ["t3", "", "3", "", "", "512MB"],
   ["t4", "", "4", "", "", "1TB"],
   ["bad", "", "9", "", ""]]

def badStorageInventory : List (List String) :=
  [["h", "h", "h", "h", "h", "h"], ["t", "", "5", "", "", "."]]

def badPartitionTable : List (List String) :=
  [["t1", "", "abc", "", "", "1GB"], ["t2", "", "3", "", "", "1GB"]]

/-! ## Semantic lemmas for the `Frac` model -/
namespace Frac
theorem dne (a : Frac) : (a.d : ℚ) ≠ 0 := by
  exact_mod_cast ne_of_gt a.dpos

@[simp] theorem toRat_ofInt (k : Int) : (ofInt k).toRat = (k : ℚ) := by
  simp [ofInt, toRat]

@[simp] theorem toRat_ofNat (m : Nat) :
    (no_index (OfNat.ofNat m) : Frac).toRat = (OfNat.ofNat m : ℚ) := by
  show (ofInt m).toRat = _
  simp only [ofInt, toRat, Int.cast_natCast, div_one, Int.cast_one]
  rfl

@[simp] theorem toRat_zero : (0 : Frac).toRat = 0 := by
  show (ofInt 0).toRat = 0
  simp [ofInt, toRat]

@[simp] theorem toRat_one : (1 : Frac).toRat = 1 := by
  show (ofInt 1).toRat = 1
  simp [ofInt, toRat]

@[simp] theorem toRat_add (a b : Frac) : (a + b).toRat = a.toRat + b.toRat := by
  show (add a b).toRat = _
  unfold add toRat
  rw [div_add_div _ _ (dne a) (dne b)]
  push_cast
  ring_nf

@[simp] theorem toRat_mul (a b : Frac) : (a * b).toRat = a.toRat * b.toRat := by
  show (mul a b).toRat = _
  unfold mul toRat
  rw [div_mul_div_comm]
  push_cast
  ring_nf

@[simp] theorem toRat_sub (a b : Frac) : (a - b).toRat = a.toRat - b.toRat := by
  show (sub a b).toRat = _
  unfold sub toRat
  rw [div_sub_div _ _ (dne a) (dne b)]
  push_cast
  ring_nf

@[simp] theorem toRat_neg (a : Frac) : (Neg.neg a).toRat = -a.toRat := by
  show (neg a).toRat = _
  unfold neg toRat
  push_cast
  ring_nf

@[simp] theorem toRat_inv (a : Frac) : a.inv.toRat = a.toRat⁻¹ := by
  unfold inv toRat
  rcases lt_trichotomy a.n 0 with h | h | h
  · rw [dif_neg (by omega), dif_pos h]
    rw [inv_div]
    push_cast
    rw [div_neg, neg_div, neg_neg]
  · rw [dif_neg (by omega), dif_neg (by omega)]
    simp [h]
  · rw [dif_pos h]
    rw [inv_div]

@[simp] theorem toRat_div (a b : Frac) : (a / b).toRat = a.toRat / b.toRat := by
  show (div a b).toRat = _
  unfold div
  rw [show (mul a b.inv).toRat = (a * b.inv).toRat from rfl, toRat_mul, toRat_inv,
    div_eq_mul_inv]

@[simp] theorem toRat_pow (a : Frac) (k : Nat) : (a ^ k).toRat = a.toRat ^ k := by
  induction k with
  | zero =>
    show (pow a 0).toRat = _
    simp [pow]
  | succ m ih =>
    show (pow a (m + 1)).toRat = _
    rw [pow, show (mul (pow a m) a).toRat = ((pow a m) * a).toRat from rfl, toRat_mul]
    rw [show (pow a m).toRat = (a ^ m).toRat from rfl, ih, pow_succ]

theorem beq_iff {a b : Frac} : beq a b = true ↔ a.toRat = b.toRat := by
  unfold beq toRat
  rw [decide_eq_true_iff, div_eq_div_iff (dne a) (dne b)]
  constructor
  · intro h
    exact_mod_cast h
  · intro h
    exact_mod_cast h

theorem isPos_iff {a : Frac} : isPos a = true ↔ 0 < a.toRat := by
  unfold isPos toRat
  rw [decide_eq_true_iff, lt_div_iff₀ (by exact_mod_cast a.dpos)]
  simp only [zero_mul]
  constructor
  · intro h
    exact_mod_cast h
  · intro h
    exact_mod_cast h

/-- Evaluation lemma: a computed `Frac` denotes the rational `a / b` as soon
as the decidable cross-multiplication test against `⟨a, b⟩` succeeds. -/
theorem toRat_eval (q : Frac) (a b : Int) (hb : 0 < b)
    (h : beq q ⟨a, b, hb⟩ = true) : q.toRat = (a : ℚ) / (b : ℚ) :=
  beq_iff.mp h

end Frac
/-! ## Evaluation lemmas and sanity checks -/
/-- Evaluation helper for `parseGb` at concrete inputs. -/
theorem parseGb_eval (s : String) (q : Frac) (a b : Int) (hb : 0 < b)
    (h : parse_storage_to_gb s = some q) (h2 : Frac.beq q ⟨a, b, hb⟩ = true) :
    parseGb s = some ((a : ℚ) / (b : ℚ)) := by
  rw [parseGb, h, Option.map_some']
  exact congrArg some (Frac.toRat_eval q a b hb h2)

example : parseGb "1GB" = some 1 := by
  have := parseGb_eval "1GB" _ 1 1 one_pos rfl (by decide)
  simpa using this
example : parseGb " 2.5 tb " = some 2560 := by
  have := parseGb_eval " 2.5 tb " _ 2560 1 one_pos rfl (by decide)
  simpa using this
example : parseGb "512MB" = some (1 / 2) := by
  have := parseGb_eval "512MB" _ 1 2 two_pos rfl (by decide)
  simpa using this
example : parseGb "7" = some (7 / (1024 * 1024 * 1024)) := by
  have := parseGb_eval "7" _ 7 (1024 * 1024 * 1024) (by norm_num) rfl (by decide)
  norm_num at this ⊢
  exact this
example : parseGb "1PB" = some 1 := by
  have := parseGb_eval "1PB" _ 1 1 one_pos rfl (by decide)
  simpa using this
example : parseGb "" = some 0 := by
  have := parseGb_eval "" _ 0 1 one_pos rfl (by decide)
  simpa using this
example : parseGb "abc" = some 0 := by
  have := parseGb_eval "abc" _ 0 1 one_pos rfl (by decide)
  simpa using this
example : parse_storage_to_gb "." = none := rfl
example : parse_storage_to_gb "1.2.3" = none := rfl

/-- On a fully-populated configuration the dict-reading function computes
exactly `romModel` (definitional). -/
theorem calc_mk (ni : Int) (fcs : List FeedConfig) (rpd : Int)
    (ih dr oh nh ws ca ga er : Frac) (sy : Int) :
    calculate_rom_costs (mkRomConfig ni fcs rpd ih dr oh nh ws ca ga er sy)
      = Except.ok (romModel ni fcs rpd ih dr oh nh ws ca ga er sy) := rfl

/-- The 7-year total produced by the loop is the first-year cost plus the
6-year operating variance. -/
theorem romLoop_cloud7 (first esc : Frac) (sy : Int) :
    ((romLoop first esc sy).2.1).toRat
      = first.toRat + ((romLoop first esc sy).2.2).toRat := by
  simp [romLoop, List.range_succ]
  ring

/-- The operating variance accumulated by the loop equals the ordered sum of
the escalated years i = 1..6. -/
theorem romLoop_opvar (first esc : Frac) (sy : Int) :
    ((romLoop first esc sy).2.2).toRat
      = (((List.range 6).map (fun i => first.toRat * (1 + esc.toRat) ^ (i + 1))).sum) := by
  simp [romLoop, List.range_succ]
  ring

example : format_in_thousands ((54232 : Frac)) = "$54,232" := by decide
example : fmtFixed 1 ((34 : Frac) / 1000 * 100) = "3.4" := by decide
example : pyFloatRepr ((279 : Frac) / 10) = "27.9" := by decide
example : pyFloatRepr ((28 : Frac)) = "28.0" := by decide
example : pyRound ((279 : Frac) / 10) = 28 := by decide
example : intComma 1234567 = "1,234,567" := by decide

/-! ## Helper lemmas about the ROM model -/

theorem foldl_add_toRat (l : List Frac) (a : Frac) :
    ((l.foldl (· + ·) a).toRat) = a.toRat + ((l.map Frac.toRat).sum) := by
  induction l generalizing a with
  | nil => simp
  | cons x xs ih =>
    simp only [List.foldl_cons, List.map_cons, List.sum_cons, ih, Frac.toRat_add]
    ring

theorem romTotalPartitions_toRat (fcs : List FeedConfig) :
    (romTotalPartitions fcs).toRat = ((fcs.map (fun f => f.partitions.toRat)).sum) := by
  unfold romTotalPartitions
  rw [foldl_add_toRat]
  simp only [Frac.toRat_zero, zero_add, List.map_map]
  rfl

/-! ## C1: the ROM first-year cloud cost formulas -/

/-- C1 counterexample: on `cfgNetworkZero` the code's network cost is
60000 (the hardcoded 120000 baseline at 50% utilization), not the
configured network rate 0 times the utilization as the claim states. -/
theorem rom_network_rate_counterexample :
    ∃ r, calculate_rom_costs cfgNetworkZero = Except.ok r ∧
      r.breakdown.network_cost.toRat = 60000 ∧ ¬ networkCostPerClaim cfgNetworkZero r := by
  refine ⟨romModel 1 [⟨1, 1, (50 : Frac)⟩] 5000 296 80 254 ((279 : Frac) / 10) 8000
      11709 9279 ((34 : Frac) / 1000) 2025, rfl, ?_, ?_⟩ <;>
  have h60 : (romModel 1 [⟨1, 1, (50 : Frac)⟩] 5000 296 80 254 ((279 : Frac) / 10) 8000
      11709 9279 ((34 : Frac) / 1000) 2025).breakdown.network_cost.toRat = 60000 := by
    have := Frac.toRat_eval ((romModel 1 [⟨1, 1, (50 : Frac)⟩] 5000 296 80 254
        ((279 : Frac) / 10) 8000 11709 9279 ((34 : Frac) / 1000)
        2025).breakdown.network_cost) 60000 1 one_pos (by decide)
    simpa using this
  · exact h60
  · rintro ⟨b, hb, he⟩
    have hb' : some (0 : Frac) = some b := hb
    obtain rfl : (0 : Frac) = b := Option.some.inj hb'
    rw [h60, Frac.toRat_zero, zero_mul] at he
    norm_num at he

/-- C1 (amended: `network_cost` uses the hardcoded 120000 baseline, not a
configured rate): for every non-negative configuration the first-year
cloud cost components follow the utilization-scaled formulas with
`network_capacity_partitions = 100`. -/
theorem rom_first_year_cloud_formulas (ni : Int) (fcs : List FeedConfig) (rpd : Int)
    (ih dr oh nh ws ca ga er : Frac) (sy : Int)
    (hni : 0 ≤ ni)
    (hf : ∀ f ∈ fcs, 0 ≤ f.inbound ∧ 0 ≤ f.outbound ∧ 0 ≤ f.partitions.toRat)
    (hrpd : 0 ≤ rpd) (hca : 0 ≤ ca.toRat) (hga : 0 ≤ ga.toRat) :
    ∃ r, calculate_rom_costs (mkRomConfig ni fcs rpd ih dr oh nh ws ca ga er sy)
        = Except.ok r ∧
      r.total_partitions.toRat = ((fcs.map (fun f => f.partitions.toRat)).sum) ∧
      r.breakdown.confluent_cost.toRat
        = ca.toRat * (ni : ℚ) * (1 + r.total_partitions.toRat / 100) ∧
      r.breakdown.gcp_cost.toRat
        = ga.toRat * (ni : ℚ) * (1 + ((rpd : ℚ) * 365 / (1024 * 1024)) / 1000) ∧
      r.breakdown.network_cost.toRat = 120000 * (r.total_partitions.toRat / 100) ∧
      r.breakdown.first_year_cloud_cost.toRat
        = r.breakdown.confluent_cost.toRat + r.breakdown.gcp_cost.toRat
          + r.breakdown.network_cost.toRat := by
  refine ⟨romModel ni fcs rpd ih dr oh nh ws ca ga er sy,
    calc_mk ni fcs rpd ih dr oh nh ws ca ga er sy, ?_, ?_, ?_, ?_, ?_⟩
  · simp only [romModel]
    exact romTotalPartitions_toRat fcs
  · simp only [romModel, romConfluentCost, romUtil]
    simp
  · simp only [romModel, romGcpCost]
    simp
  · simp only [romModel, romNetworkCost, romUtil]
    simp
  · simp only [romModel, romFirstYear, Frac.toRat_add]

/-- C1 witness -/
theorem rom_first_year_cloud_formulas_witness :
    ∃ r, calculate_rom_costs (mkRomConfig 1 [⟨1, 1, (24 : Frac)⟩] 5000 296 80 254
          ((279 : Frac) / 10) 8000 11709 9279 ((34 : Frac) / 1000) 2025)
        = Except.ok r ∧
      r.total_partitions.toRat
        = (([⟨1, 1, (24 : Frac)⟩] : List FeedConfig).map (fun f => f.partitions.toRat)).sum ∧
      r.breakdown.confluent_cost.toRat
        = (11709 : Frac).toRat * ((1 : Int) : ℚ) * (1 + r.total_partitions.toRat / 100) ∧
      r.breakdown.gcp_cost.toRat
        = (9279 : Frac).toRat * ((1 : Int) : ℚ)
            * (1 + (((5000 : Int) : ℚ) * 365 / (1024 * 1024)) / 1000) ∧
      r.breakdown.network_cost.toRat = 120000 * (r.total_partitions.toRat / 100) ∧
      r.breakdown.first_year_cloud_cost.toRat
        = r.breakdown.confluent_cost.toRat + r.breakdown.gcp_cost.toRat
          + r.breakdown.network_cost.toRat :=
  rom_first_year_cloud_formulas 1 [⟨1, 1, (24 : Frac)⟩] 5000 296 80 254
    ((279 : Frac) / 10) 8000 11709 9279 ((34 : Frac) / 1000) 2025
    (by decide)
    (by
      intro f hf
      rw [List.mem_singleton] at hf
      subst hf
      refine ⟨by decide, by decide, by norm_num⟩)
    (by decide) (by norm_num) (by norm_num)

/-! ## C2: the ROM aggregate identities -/

/-- C2: for every fully-specified configuration the aggregates satisfy
`total_project_cost = one_time_total + cloud_7year_total` and
`cloud_7year_total - first_year_cloud = operating_variance_6year`
exactly, with the seven-year total being the first-year cost plus the six
escalated years summed in order i = 1..6. -/
theorem rom_aggregate_identities (ni : Int) (fcs : List FeedConfig) (rpd : Int)
    (ih dr oh nh ws ca ga er : Frac) (sy : Int) :
    ∃ r, calculate_rom_costs (mkRomConfig ni fcs rpd ih dr oh nh ws ca ga er sy)
        = Except.ok r ∧
      r.breakdown.total_project_cost.toRat
        = r.breakdown.one_time_development.toRat + r.breakdown.cloud_infrastructure_7year.toRat ∧
      r.breakdown.cloud_infrastructure_7year.toRat - r.breakdown.first_year_cloud_cost.toRat
        = r.breakdown.operating_variance_6year.toRat ∧
      r.breakdown.cloud_infrastructure_7year.toRat
        = r.breakdown.first_year_cloud_cost.toRat
          + (((List.range 6).map
              (fun i => r.breakdown.first_year_cloud_cost.toRat * (1 + er.toRat) ^ (i + 1))).sum) := by
  refine ⟨romModel ni fcs rpd ih dr oh nh ws ca ga er sy,
    calc_mk ni fcs rpd ih dr oh nh ws ca ga er sy, ?_, ?_, ?_⟩
  · simp only [romModel, Frac.toRat_add]
  · simp only [romModel]
    rw [romLoop_cloud7]
    ring
  · simp only [romModel]
    rw [romLoop_cloud7, romLoop_opvar]

/-! ## C3: the flat-rate scenario fixture -/

/-- C3: under the flat-rate variant the fixture configuration yields
`one_time_total = 54232`, `first_year_cloud = 30267`, and
`total_project_cost` equal to those two bases plus the six escalated
years of the escalation formula. -/
theorem rom_flat_scenario :
    flatScenario.one_time_total.toRat = 54232 ∧
    flatScenario.first_year_cloud.toRat = 30267 ∧
    flatScenario.total_project_cost.toRat
      = 54232 + 30267
        + (((List.range 6).map (fun i => (30267 : ℚ) * (1 + 34 / 1000) ^ (i + 1))).sum) := by
  refine ⟨?_, ?_, ?_⟩
  · have := Frac.toRat_eval flatScenario.one_time_total 54232 1 one_pos (by decide)
    simpa using this
  · have := Frac.toRat_eval flatScenario.first_year_cloud 30267 1 one_pos (by decide)
    simpa using this
  · have h := Frac.toRat_eval flatScenario.total_project_cost
      4515292755836099917423 15625000000000000 (by norm_num) (by decide)
    rw [h]
    simp [List.range_succ]
    norm_num

/-! ## C10: the ROM model is not total over configuration dicts -/

theorem bindE_ok {α β : Type} (a : α) (f : α → Except String β) :
    (Except.ok a : Except String α) >>= f = f a := rfl

theorem bindE_error {α β : Type} (e : String) (f : α → Except String β) :
    (Except.error e : Except String α) >>= f = Except.error e := rfl

/-- C10: a configuration lacking `confluent_annual_cost` (or
`gcp_per_feed_annual_cost`) makes `calculate_rom_costs` raise a
`KeyError`; the application's default ROM configuration, which supplies
only the monthly cost keys, is such an input. -/
theorem rom_missing_annual_key_error (cfg : RomConfigDict) (y : Int)
    (h : cfg.confluent_annual_cost = none ∨ cfg.gcp_per_feed_annual_cost = none) :
    isOkE (calculate_rom_costs cfg) = false ∧
    (DEFAULT_ROM_CONFIG y).confluent_annual_cost = none ∧
    isOkE (calculate_rom_costs (DEFAULT_ROM_CONFIG y)) = false := by
  refine ⟨?_, rfl, rfl⟩
  obtain ⟨ni, fc, rp, ih, dr, oh, nh, ws, ca, ga, er, sy, cm, gm, bn⟩ := cfg
  rcases h with h | h
  · cases ca with
    | none => cases ih <;> cases dr <;> cases oh <;> cases nh <;> cases ws <;> rfl
    | some v => simp at h
  · cases ga with
    | none =>
      cases ih <;> cases dr <;> cases oh <;> cases nh <;> cases ws <;> cases ca <;> rfl
    | some v => simp at h

/-- C10 witness -/
theorem rom_missing_annual_key_error_witness :
    isOkE (calculate_rom_costs (DEFAULT_ROM_CONFIG 2025)) = false ∧
    (DEFAULT_ROM_CONFIG 2025).confluent_annual_cost = none ∧
    isOkE (calculate_rom_costs (DEFAULT_ROM_CONFIG 2025)) = false :=
  rom_missing_annual_key_error (DEFAULT_ROM_CONFIG 2025) 2025 (Or.inl rfl)

/-! ## C8: zero inventory totals in the prorated cost model -/

/-- C8: with an empty inventory both ratios are 0 (guarded, no division
error), the prorated compute, storage and governance costs are 0, and the
network cost remains the flat annual network cost times the multiplier. -/
theorem prorated_zero_totals (sc : SizeConfig) (ss : String) (cku : CkuConfig)
    (fc : FlatCosts) (T : Int) (S : Frac) (hT : T = 0) (hS : S.toRat = 0) :
    (partitionRat sc.partitions T).toRat = 0 ∧
    (storageRat sc.storage_gb S).toRat = 0 ∧
    (calculate_costs sc ss cku fc T S).compute.toRat = 0 ∧
    (calculate_costs sc ss cku fc T S).storage.toRat = 0 ∧
    (calculate_costs sc ss cku fc T S).governance.toRat = 0 ∧
    (calculate_costs sc ss cku fc T S).network.toRat
      = (fc.network : ℚ) * fc.network_multiplier.toRat := by
  subst hT
  have hS' : S.isPos = false := by
    rw [Bool.eq_false_iff]
    intro hp
    rw [Frac.isPos_iff, hS] at hp
    exact lt_irrefl 0 hp
  have h1 : (partitionRat sc.partitions 0).toRat = 0 := by
    simp [partitionRat]
  have h2 : (storageRat sc.storage_gb S).toRat = 0 := by
    simp [storageRat, hS']
  refine ⟨h1, h2, ?_, ?_, ?_, ?_⟩ <;>
    simp [calculate_costs, h1, h2]

/-- C8 witness -/
theorem prorated_zero_totals_witness :
    (partitionRat (⟨24, 100⟩ : SizeConfig).partitions 0).toRat = 0 ∧
    (storageRat (⟨24, 100⟩ : SizeConfig).storage_gb 0).toRat = 0 ∧
    (calculate_costs ⟨24, 100⟩ "Medium" ⟨14, 1925, 28, 1585⟩
        ⟨180000, 120000, (3 : Frac) / 4, 42840⟩ 0 0).compute.toRat = 0 ∧
    (calculate_costs ⟨24, 100⟩ "Medium" ⟨14, 1925, 28, 1585⟩
        ⟨180000, 120000, (3 : Frac) / 4, 42840⟩ 0 0).storage.toRat = 0 ∧
    (calculate_costs ⟨24, 100⟩ "Medium" ⟨14, 1925, 28, 1585⟩
        ⟨180000, 120000, (3 : Frac) / 4, 42840⟩ 0 0).governance.toRat = 0 ∧
    (calculate_costs ⟨24, 100⟩ "Medium" ⟨14, 1925, 28, 1585⟩
        ⟨180000, 120000, (3 : Frac) / 4, 42840⟩ 0 0).network.toRat
      = (((⟨180000, 120000, (3 : Frac) / 4, 42840⟩ : FlatCosts).network : ℚ)
          * ((⟨180000, 120000, (3 : Frac) / 4, 42840⟩ : FlatCosts).network_multiplier).toRat) :=
  prorated_zero_totals ⟨24, 100⟩ "Medium" ⟨14, 1925, 28, 1585⟩
    ⟨180000, 120000, (3 : Frac) / 4, 42840⟩ 0 0 rfl (by norm_num)

/-! ## C9: graceful degradation of the spreadsheet exports -/

/-- C9: with the spreadsheet dependency unavailable, the complete,
engineering-only and cloud-only ROM exports all return the CSV ROM layout
encoded as bytes, and the cost-projection workbook returns the projection
CSV encoded as bytes; none of them raises. -/
theorem excel_fallback_to_csv (ni : Int) (fcs : List FeedConfig) (rpd : Int)
    (ih dr oh nh ws ca ga er : Frac) (sy : Int) (lp : Option String)
    (ss : String) (p sg : Int) (cku : CkuConfig) (fc : FlatCosts) (c : Costs)
    (rate : Frac) (cy : Int) (lp2 : String) :
    (∃ s, generate_rom_export (mkRomConfig ni fcs rpd ih dr oh nh ws ca ga er sy)
        = Except.ok s ∧
      generate_rom_export_excel false (mkRomConfig ni fcs rpd ih dr oh nh ws ca ga er sy) lp
        = Except.ok (ExportResult.bytes s) ∧
      generate_rom_export_excel_de_only false (mkRomConfig ni fcs rpd ih dr oh nh ws ca ga er sy)
        = Except.ok (ExportResult.bytes s) ∧
      generate_rom_export_excel_cloud_only false (mkRomConfig ni fcs rpd ih dr oh nh ws ca ga er sy)
        = Except.ok (ExportResult.bytes s)) ∧
    generate_cost_projection_excel false ss p sg cku fc c rate cy lp2
      = ExportResult.bytes (generate_cost_projection_csv ss p sg cku fc c rate cy) :=
  ⟨⟨_, rfl, rfl, rfl, rfl⟩, rfl⟩

theorem map_eq_self {f : Char → Char} {l : List Char} (h : ∀ c ∈ l, f c = c) :
    l.map f = l := by
  induction l with
  | nil => rfl
  | cons a t ih =>
    simp only [List.map_cons, h a (List.mem_cons_self a t),
      ih (fun c hc => h c (List.mem_cons_of_mem a hc))]

theorem takeWhile_all {p : Char → Bool} {l : List Char} (h : ∀ c ∈ l, p c = true) :
    l.takeWhile p = l := by
  induction l with
  | nil => rfl
  | cons a t ih =>
    rw [List.takeWhile_cons_of_pos (h a (List.mem_cons_self a t)),
      ih (fun c hc => h c (List.mem_cons_of_mem a hc))]

theorem dropWhile_all {p : Char → Bool} {l : List Char} (h : ∀ c ∈ l, p c = true) :
    l.dropWhile p = [] := by
  induction l with
  | nil => rfl
  | cons a t ih =>
    rw [List.dropWhile_cons_of_pos (h a (List.mem_cons_self a t))]
    exact ih (fun c hc => h c (List.mem_cons_of_mem a hc))

theorem mem_of_head? {l : List Char} {c : Char} (h : l.head? = some c) : c ∈ l := by
  cases l with
  | nil => cases h
  | cons a t =>
    obtain rfl : a = c := by simpa using h
    exact List.mem_cons_self a t

theorem mem_of_getLast? {l : List Char} {c : Char} (h : l.getLast? = some c) : c ∈ l := by
  rw [List.getLast?_eq_head?_reverse] at h
  have := mem_of_head? h
  simpa using this

theorem dropWhile_keep {p : Char → Bool} {l : List Char}
    (h : ∀ c, l.head? = some c → p c = false) : l.dropWhile p = l := by
  cases l with
  | nil => rfl
  | cons a t => rw [List.dropWhile_cons_of_neg (by simp [h a rfl])]

theorem pyStrip_eq_of_bounds {l : List Char}
    (h1 : ∀ c, l.head? = some c → pyIsSpace c = false)
    (h2 : ∀ c, l.getLast? = some c → pyIsSpace c = false) :
    pyStrip l = l := by
  unfold pyStrip
  rw [dropWhile_keep h1, dropWhile_keep (by
    intro c hc
    rw [List.head?_reverse] at hc
    exact h2 c hc), List.reverse_reverse]

theorem pyStrip_append_spaces {m ws : List Char} (hm : m ≠ [])
    (h1 : ∀ c, m.head? = some c → pyIsSpace c = false)
    (h2 : ∀ c, m.getLast? = some c → pyIsSpace c = false)
    (hws : ∀ c ∈ ws, pyIsSpace c = true) :
    pyStrip (m ++ ws) = m := by
  unfold pyStrip
  rw [@dropWhile_keep pyIsSpace (m ++ ws) (by
    intro c hc
    rw [List.head?_append] at hc
    cases hm3 : m.head? with
    | none => rw [List.head?_eq_none_iff] at hm3; exact absurd hm3 hm
    | some b =>
      rw [hm3] at hc
      simp only [Option.or_some] at hc
      exact h1 c (by rw [hm3, hc]))]
  rw [List.reverse_append, List.dropWhile_append_of_pos (by
    intro c hc
    rw [List.mem_reverse] at hc
    simp [hws c hc])]
  rw [@dropWhile_keep pyIsSpace m.reverse (by
    intro c hc
    rw [List.head?_reverse] at hc
    exact h2 c hc), List.reverse_reverse]

/-- C4 amended -/

theorem storage_unit_conversion_characterization
    (num ws unit : List Char)
    (hnum_ne : num ≠ [])
    (hnum : ∀ c ∈ num, (c.isDigit = true ∨ c = '.') ∧ c.toUpper = c ∧ pyIsSpace c = false)
    (hdots : num.count '.' ≤ 1)
    (hdig : ∃ c ∈ num, c.isDigit = true)
    (hws : ∀ c ∈ ws, pyIsSpace c = true ∧ isDigitOrDot c = false ∧ c.toUpper = c)
    (hunit : ∀ c ∈ unit, isUpperAlpha c.toUpper = true ∧ isDigitOrDot c.toUpper = false
      ∧ pyIsSpace c.toUpper = false ∧ pyIsSpace c = false) :
    parseStorageCore (num ++ ws ++ unit)
      = some (tokVal num
          * unitFactor (if unit = [] then "B".data else unit.map Char.toUpper)) := by
  have hnum_dd : ∀ c ∈ num, isDigitOrDot c = true := by
    intro c hc
    rcases (hnum c hc).1 with h | h <;> simp [isDigitOrDot, h]
  have hnum_ns : ∀ c ∈ num, pyIsSpace c = false := fun c hc => (hnum c hc).2.2
  have hmap_num : num.map Char.toUpper = num := map_eq_self (fun c hc => (hnum c hc).2.1)
  have hmap_ws : ws.map Char.toUpper = ws := map_eq_self (fun c hc => (hws c hc).2.2)
  have hfloat : pyFloatOfToken num = some (tokVal num) := by
    unfold pyFloatOfToken
    rw [if_pos]
    rw [Bool.and_eq_true, decide_eq_true_iff, List.any_eq_true]
    obtain ⟨c, hc, hcd⟩ := hdig
    exact ⟨hdots, c, hc, hcd⟩
  have hhead : ∀ c, num.head? = some c → pyIsSpace c = false :=
    fun c hc => hnum_ns c (mem_of_head? hc)
  cases unit with
  | nil =>
    rw [List.append_nil, if_pos rfl]
    have hstrip : pyStrip (num ++ ws) = num :=
      pyStrip_append_spaces hnum_ne hhead
        (fun c hc => hnum_ns c (mem_of_getLast? hc)) (fun c hc => (hws c hc).1)
    have hne : pyStrip (num ++ ws) ≠ [] := by rw [hstrip]; exact hnum_ne
    unfold parseStorageCore
    rw [if_neg hne, hstrip, hmap_num]
    dsimp only
    rw [takeWhile_all hnum_dd, if_neg hnum_ne, hfloat]
    rw [dropWhile_all hnum_dd, List.dropWhile_nil, List.takeWhile_nil, if_pos rfl]
  | cons u us =>
    rw [if_neg (by simp)]
    have hlast : ∀ c, (num ++ ws ++ u :: us).getLast? = some c → pyIsSpace c = false := by
      intro c hc
      rw [List.getLast?_append] at hc
      cases hu3 : (u :: us).getLast? with
      | none => rw [List.getLast?_eq_none_iff] at hu3; cases hu3
      | some b =>
        rw [hu3] at hc
        simp only [Option.or_some] at hc
        exact (hunit c (mem_of_getLast? (by rw [hu3, hc]))).2.2.2
    have hstrip : pyStrip (num ++ ws ++ u :: us) = num ++ ws ++ u :: us :=
      pyStrip_eq_of_bounds (by
        intro c hc
        rw [List.append_assoc, List.head?_append] at hc
        cases hm3 : num.head? with
        | none => rw [List.head?_eq_none_iff] at hm3; exact absurd hm3 hnum_ne
        | some b =>
          rw [hm3] at hc
          simp only [Option.or_some] at hc
          exact hhead c (by rw [hm3, hc])) hlast
    have hne : pyStrip (num ++ ws ++ u :: us) ≠ [] := by
      rw [hstrip]; simp
    unfold parseStorageCore
    rw [if_neg hne, hstrip]
    dsimp only
    rw [List.append_assoc, List.map_append, hmap_num]
    rw [List.takeWhile_append_of_pos hnum_dd, List.dropWhile_append_of_pos hnum_dd]
    rw [List.map_append, hmap_ws]
    have hwsdd : ∀ c ∈ ws, isDigitOrDot c = true → False := by
      intro c hc h
      rw [(hws c hc).2.1] at h
      cases h
    have hudd : ∀ c, ((u :: us).map Char.toUpper).head? = some c → isDigitOrDot c = false := by
      intro c hc
      simp only [List.map_cons, List.head?_cons, Option.some.injEq] at hc
      rw [← hc]
      exact (hunit u (List.mem_cons_self u us)).2.1
    have hdw : (ws ++ (u :: us).map Char.toUpper).takeWhile isDigitOrDot = [] := by
      cases hwsc : ws with
      | nil =>
        simp only [List.nil_append]
        cases hc : ((u :: us).map Char.toUpper) with
        | nil => simp at hc
        | cons b rb =>
          rw [List.takeWhile_cons_of_neg]
          have := hudd b (by rw [hc]; rfl)
          simp [this]
      | cons w tws =>
        rw [List.cons_append, List.takeWhile_cons_of_neg]
        have : isDigitOrDot w = false := (hws w (by rw [hwsc]; exact List.mem_cons_self w tws)).2.1
        simp [this]
    have hdw2 : (ws ++ (u :: us).map Char.toUpper).dropWhile isDigitOrDot
        = ws ++ (u :: us).map Char.toUpper := by
      apply dropWhile_keep
      intro c hc
      rw [List.head?_append] at hc
      cases hwsc : ws.head? with
      | none =>
        rw [hwsc, Option.none_or] at hc
        exact hudd c hc
      | some w =>
        rw [hwsc, Option.or_some] at hc
        obtain rfl : w = c := by simpa using hc
        exact (hws w (mem_of_head? hwsc)).2.1
    have hsp : (ws ++ (u :: us).map Char.toUpper).dropWhile pyIsSpace
        = (u :: us).map Char.toUpper := by
      rw [List.dropWhile_append_of_pos (by
        intro c hc
        simp [(hws c hc).1])]
      apply dropWhile_keep
      intro c hc
      simp only [List.map_cons, List.head?_cons, Option.some.injEq] at hc
      rw [← hc]
      exact (hunit u (List.mem_cons_self u us)).2.2.1
    have hta : ((u :: us).map Char.toUpper).takeWhile isUpperAlpha
        = (u :: us).map Char.toUpper := by
      apply takeWhile_all
      intro c hc
      rw [List.mem_map] at hc
      obtain ⟨b, hb, rfl⟩ := hc
      exact (hunit b hb).1
    rw [hdw, List.append_nil, if_neg hnum_ne, hfloat, hdw2, hsp, hta, if_neg (by simp)]

/-- C5 check -/

theorem storage_conversion_raises_on_dot :
    parse_storage_to_gb "." = none ∧ parse_storage_to_gb "1.2.3" = none := ⟨rfl, rfl⟩

theorem csvFold (l : List (List String)) (inv : Inventory) :
    ((l.foldl csvStep inv).total_partitions
        = inv.total_partitions + ((l.filterMap processCsvRow).map (fun t => t.partitions)).sum) ∧
    ((l.foldl csvStep inv).total_storage_gb.toRat
        = inv.total_storage_gb.toRat
          + ((l.filterMap processCsvRow).map (fun t => t.storage_gb.toRat)).sum) ∧
    ((l.foldl csvStep inv).topics = inv.topics ++ l.filterMap processCsvRow) := by
  induction l generalizing inv with
  | nil => simp
  | cons a t ih =>
    rw [List.foldl_cons]
    cases h : processCsvRow a with
    | none =>
      rw [show csvStep inv a = inv from by rw [csvStep, h]]
      rw [List.filterMap_cons_none h]
      exact ih inv
    | some rec =>
      have hst : csvStep inv a
          = ⟨inv.total_partitions + rec.partitions, inv.total_storage_gb + rec.storage_gb,
            inv.topics ++ [rec]⟩ := by rw [csvStep, h]
      rw [hst, List.filterMap_cons_some h]
      obtain ⟨hA, hB, hC⟩ := ih ⟨inv.total_partitions + rec.partitions,
        inv.total_storage_gb + rec.storage_gb, inv.topics ++ [rec]⟩
      refine ⟨?_, ?_, ?_⟩
      · rw [hA, List.map_cons, List.sum_cons]
        dsimp only
        ring
      · rw [hB, List.map_cons, List.sum_cons]
        dsimp only
        rw [Frac.toRat_add]
        ring
      · rw [hC]
        simp

/-- C6 amended -/

theorem csv_aggregation_characterization (rows : List (List String)) :
    ((parse_csv_file rows).total_partitions
        = (((rows.drop 1).filterMap processCsvRow).map (fun t => t.partitions)).sum) ∧
    ((parse_csv_file rows).total_storage_gb.toRat
        = (((rows.drop 1).filterMap processCsvRow).map (fun t => t.storage_gb.toRat)).sum) ∧
    ((parse_csv_file rows).topics = (rows.drop 1).filterMap processCsvRow) ∧
    (parse_csv_file exampleInventory).total_partitions = 10 ∧
    (parse_csv_file exampleInventory).total_storage_gb.toRat = 2055 / 2 ∧
    (parse_csv_file exampleInventory).topics.length = 4 := by
  have h := csvFold (rows.drop 1) ⟨0, 0, []⟩
  refine ⟨?_, ?_, ?_, by decide, ?_, by decide⟩
  · rw [show parse_csv_file rows = (rows.drop 1).foldl csvStep ⟨0, 0, []⟩ from rfl]
    simpa using h.1
  · rw [show parse_csv_file rows = (rows.drop 1).foldl csvStep ⟨0, 0, []⟩ from rfl]
    have h2 := h.2.1
    simpa using h2
  · rw [show parse_csv_file rows = (rows.drop 1).foldl csvStep ⟨0, 0, []⟩ from rfl]
    simpa using h.2.2
  · have := Frac.toRat_eval (parse_csv_file exampleInventory).total_storage_gb 2055 2
      two_pos (by decide)
    simpa using this

/-- C6 counterexample -/

theorem csv_storage_failure_row_counterexample :
    claimedPartitionTotal badStorageInventory = 5 ∧
    (parse_csv_file badStorageInventory).total_partitions = 0 := ⟨by decide, by decide⟩

theorem tableAggregate_ok (rows : List (List String)) (inv : Inventory)
    (h : ∀ r ∈ rows, isOkE (processTableRow r) = true) :
    ∃ out, tableAggregate inv rows = Except.ok out ∧
      out.total_partitions = inv.total_partitions
        + ((rows.filterMap (fun r => (processTableRow r).toOption)).map
            (fun t => t.partitions)).sum ∧
      out.total_storage_gb.toRat = inv.total_storage_gb.toRat
        + ((rows.filterMap (fun r => (processTableRow r).toOption)).map
            (fun t => t.storage_gb.toRat)).sum ∧
      out.topics = inv.topics ++ rows.filterMap (fun r => (processTableRow r).toOption) := by
  induction rows generalizing inv with
  | nil => exact ⟨inv, rfl, by simp, by simp, by simp⟩
  | cons a t ih =>
    have ha := h a (List.mem_cons_self a t)
    cases hp : processTableRow a with
    | error e => rw [hp] at ha; cases ha
    | ok rec =>
      obtain ⟨out, hout, h1, h2, h3⟩ :=
        ih ⟨inv.total_partitions + rec.partitions, inv.total_storage_gb + rec.storage_gb,
          inv.topics ++ [rec]⟩ (fun r hr => h r (List.mem_cons_of_mem a hr))
      refine ⟨out, ?_, ?_, ?_, ?_⟩
      · rw [show tableAggregate inv (a :: t)
            = tableAggregate ⟨inv.total_partitions + rec.partitions,
                inv.total_storage_gb + rec.storage_gb, inv.topics ++ [rec]⟩ t from by
          rw [tableAggregate, hp]]
        exact hout
      · rw [h1]
        simp only [List.filterMap_cons, hp, Except.toOption, List.map_cons, List.sum_cons]
        ring
      · rw [h2]
        simp only [List.filterMap_cons, hp, Except.toOption, List.map_cons, List.sum_cons,
          Frac.toRat_add]
        ring
      · rw [h3]
        simp [List.filterMap_cons, hp, Except.toOption]

theorem tableAggregate_error (rows : List (List String)) (inv : Inventory) (r : List String)
    (hr : r ∈ rows) (he : isOkE (processTableRow r) = false) :
    isOkE (tableAggregate inv rows) = false := by
  induction rows generalizing inv with
  | nil => cases hr
  | cons a t ih =>
    cases hp : processTableRow a with
    | error e => rw [tableAggregate, hp]; rfl
    | ok rec =>
      rw [tableAggregate, hp]
      rcases List.mem_cons.mp hr with rfl | hr2
      · rw [hp] at he; cases he
      · exact ih _ hr2

/-- C7 amended -/

theorem table_ingestion_behavior (cause : String) (rows : List (List String)) :
    parse_databricks_table (Except.error cause)
      = Except.error ("Failed to load Databricks table: " ++ cause) ∧
    ((∀ r ∈ rows, isOkE (processTableRow r) = true) →
      ∃ inv, parse_databricks_table (Except.ok rows) = Except.ok inv ∧
        inv.total_partitions = ((rows.filterMap (fun r => (processTableRow r).toOption)).map
            (fun t => t.partitions)).sum ∧
        inv.total_storage_gb.toRat = ((rows.filterMap (fun r => (processTableRow r).toOption)).map
            (fun t => t.storage_gb.toRat)).sum ∧
        inv.topics = rows.filterMap (fun r => (processTableRow r).toOption)) ∧
    (∀ r ∈ rows, isOkE (processTableRow r) = false →
      isOkE (parse_databricks_table (Except.ok rows)) = false) := by
  refine ⟨rfl, ?_, ?_⟩
  · intro hok
    obtain ⟨out, hout, h1, h2, h3⟩ := tableAggregate_ok rows ⟨0, 0, []⟩ hok
    refine ⟨out, ?_, by simpa using h1, by simpa using h2, by simpa using h3⟩
    rw [parse_databricks_table]
    rw [show (do
        let rs ← Except.ok rows
        tableAggregate ⟨0, 0, []⟩ rs : Except String Inventory)
      = tableAggregate ⟨0, 0, []⟩ rows from rfl, hout]
  · intro r hr he
    have := tableAggregate_error rows ⟨0, 0, []⟩ r hr he
    rw [parse_databricks_table]
    rw [show (do
        let rs ← Except.ok rows
        tableAggregate ⟨0, 0, []⟩ rs : Except String Inventory)
      = tableAggregate ⟨0, 0, []⟩ rows from rfl]
    cases hagg : tableAggregate ⟨0, 0, []⟩ rows with
    | ok x => rw [hagg] at this; cases this
    | error e => rfl

/-- C7 counterexample -/

theorem table_row_tolerance_counterexample :
    parse_databricks_table (Except.ok badPartitionTable)
      = Except.error "Failed to load Databricks table: ValueError: abc" ∧
    (parse_csv_file (["h", "h", "h", "h", "h", "h"] :: badPartitionTable)).total_partitions
      = 3 := ⟨rfl, by decide⟩

/-- C7 witness -/

theorem table_ingestion_behavior_witness :
    parse_databricks_table (Except.error "connection refused")
      = Except.error ("Failed to load Databricks table: " ++ "connection refused") ∧
    (∃ inv, parse_databricks_table (Except.ok [["t2", "", "3", "", "", "1GB"]])
        = Except.ok inv ∧
      inv.total_partitions
        = (([["t2", "", "3", "", "", "1GB"]].filterMap
            (fun r => (processTableRow r).toOption)).map (fun t => t.partitions)).sum ∧
      inv.total_storage_gb.toRat
        = (([["t2", "", "3", "", "", "1GB"]].filterMap
            (fun r => (processTableRow r).toOption)).map (fun t => t.storage_gb.toRat)).sum ∧
      inv.topics = [["t2", "", "3", "", "", "1GB"]].filterMap
          (fun r => (processTableRow r).toOption)) :=
  ⟨(table_ingestion_behavior "connection refused" [["t2", "", "3", "", "", "1GB"]]).1,
   (table_ingestion_behavior "connection refused" [["t2", "", "3", "", "", "1GB"]]).2.1
     (by decide)⟩

/-- C4 counterexample -/

theorem storage_unit_default_counterexample :
    parseGb "1PB" = some 1 ∧
    (unitFactorPerClaim ("PB".data)).toRat = 1 / (1024 * 1024 * 1024) ∧
    parseGb "1PB"
      ≠ some ((tokVal ("1".data)).toRat * (unitFactorPerClaim ("PB".data)).toRat) := by
  have h1 : parseGb "1PB" = some 1 := by
    have := parseGb_eval "1PB" _ 1 1 one_pos rfl (by decide)
    simpa using this
  have h2 : (unitFactorPerClaim ("PB".data)).toRat = 1 / (1024 * 1024 * 1024) := by
    rw [show unitFactorPerClaim ("PB".data) = (1 : Frac) / (1024 * 1024 * 1024) from rfl]
    norm_num
  have h3 : (tokVal ("1".data)).toRat = 1 := by
    have := Frac.toRat_eval (tokVal ("1".data)) 1 1 one_pos (by decide)
    simpa using this
  refine ⟨h1, h2, ?_⟩
  rw [h1, h2, h3]
  intro hcon
  have := Option.some.inj hcon
  norm_num at this

/-- C4 witness -/

theorem storage_unit_conversion_characterization_witness :
    ("2".data ≠ ([] : List Char)) ∧
    parseStorageCore ("2".data ++ " ".data ++ "tb".data)
      = some (tokVal ("2".data)
          * unitFactor (if "tb".data = ([] : List Char) then "B".data
              else "tb".data.map Char.toUpper)) :=
  ⟨by decide,
   storage_unit_conversion_characterization ("2".data) (" ".data) ("tb".data)
     (by decide) (by decide) (by decide) (by decide) (by decide) (by decide)⟩

end CostCalc
